import Mathlib

/-!
Verification of the spreadsheet import/export and derived-metrics pipeline of
the mrfitblucontrol repository.

The embedding models `backend/src/routes/products.js` (the Excel import and
export route handlers and the toggle-status handler) and the pure metric
helpers of the frontend pages (`calculateProfitMarginPercentage`,
`calculateSuggestedDiscount`).

Modelling conventions:
- JavaScript numbers are embedded as rationals (`Rat`).
- A spreadsheet cell is an `Option`: `none` stands for an absent cell or a
  value the relevant JS parse (`parseInt` / `parseFloat`) cannot turn into a
  number.  For the string columns, the JS falsiness test `!v` holds exactly
  when the cell is `none` or `some ""`, i.e. when `v.getD "" = ""`.
- `parseInt(v) || 0` and `parseFloat(v) || 0` both map an absent or
  unparsable cell to `0` and keep a parsed value (a parsed `0` is mapped to
  `0` by the `|| 0` as well, which is the identity there), so both are
  embedded as `Option.getD v 0`.
- Timestamps (milliseconds since the epoch, as produced by `getTime()` and
  `Date.now()`) are rationals.
- The pt-BR locale date rendering used for the export `createdAt` column is
  presentation-only library behaviour; the embedding carries the raw
  timestamp through instead.  No claim depends on it.
-/

namespace MrFit

/-- The apostrophe character (Unicode 39), used by the category error
message of the import route. -/
def apos : String := String.singleton (Char.ofNat 39)

/-- Valid product categories, from `products.js` line 87. -/
def validCategories : List String := ["Frango", "Carne", "Peixe", "Vegetariano"]

/-- Error message for a row failing the required-fields check
(`products.js` line 82). -/
def invalidDataMsg (rowNumber : Nat) : String :=
  "Linha " ++ toString rowNumber ++
    ": Dados inválidos (nome, categoria, e preços são obrigatórios)"

/-- Error message for a row with an unknown category (`products.js` line 89):
the offending value is spliced between apostrophes and the valid categories
are joined with a comma, as `validCategories.join(', ')` does. -/
def invalidCategoryMsg (rowNumber : Nat) (category : String) : String :=
  "Linha " ++ toString rowNumber ++ ": Categoria " ++ apos ++ category ++ apos ++
    " inválida. Use: " ++ String.intercalate ", " validCategories

/-- One raw spreadsheet row, columns A..H of the import sheet
(`products.js` lines 71-78). -/
structure ExcelRow where
  name : Option String
  description : Option String
  category : Option String
  weight : Option String
  quantity : Option Int
  costPrice : Option Rat
  sellingPrice : Option Rat
  ifoodPrice : Option Rat
deriving DecidableEq

/-- A validated product candidate as pushed onto `productsToCreate`
(`products.js` lines 94-104). -/
structure ProductCandidate where
  name : String
  description : String
  category : String
  weight : Option String
  quantity : Int
  costPrice : Rat
  sellingPrice : Rat
  ifoodPrice : Rat
  isActive : Bool
deriving DecidableEq

/-- The row validator of the import route (`products.js` lines 71-104):
required-fields check first, then the category check, then the candidate is
built with `isActive := true`.  The JS falsiness tests `!name` and
`!category` are `getD "" = ""` under the cell convention above, and the
numeric parses with `|| 0` are `getD 0`. -/
def validateRow (rowNumber : Nat) (row : ExcelRow) : Except String ProductCandidate :=
  if row.name.getD "" = "" ∨ row.category.getD "" = "" ∨
      row.costPrice.getD 0 ≤ 0 ∨ row.sellingPrice.getD 0 ≤ 0 then
    Except.error (invalidDataMsg rowNumber)
  else if row.category.getD "" ∉ validCategories then
    Except.error (invalidCategoryMsg rowNumber (row.category.getD ""))
  else
    Except.ok
      { name := row.name.getD ""
        description := row.description.getD ""
        category := row.category.getD ""
        weight := row.weight
        quantity := row.quantity.getD 0
        costPrice := row.costPrice.getD 0
        sellingPrice := row.sellingPrice.getD 0
        ifoodPrice := row.ifoodPrice.getD 0
        isActive := true }

/-- Mutable scan state of the import loop (`products.js` lines 56-59). -/
structure ImportState where
  productsToCreate : List ProductCandidate
  errors : List String
  rowCount : Nat
  successCount : Nat
deriving DecidableEq

/-- Initial scan state: empty lists and zero counters. -/
def initialImportState : ImportState := ⟨[], [], 0, 0⟩

/-- One step of the `eachRow` loop (`products.js` lines 62-110): row 1 is
skipped unconditionally; every other row bumps `rowCount` and then either
lands in `errors` or is appended to `productsToCreate` with a `successCount`
bump. -/
def processRow (state : ImportState) (entry : Nat × ExcelRow) : ImportState :=
  if entry.1 = 1 then state
  else
    match validateRow entry.1 entry.2 with
    | Except.error msg =>
        { state with
            rowCount := state.rowCount + 1
            errors := state.errors ++ [msg] }
    | Except.ok candidate =>
        { state with
            rowCount := state.rowCount + 1
            productsToCreate := state.productsToCreate ++ [candidate]
            successCount := state.successCount + 1 }

/-- The whole scan over the worksheet.  The worksheet is the list of
(1-based row number, row) pairs handed to `eachRow` with
`includeEmpty: false`. -/
def runImport (worksheet : List (Nat × ExcelRow)) : ImportState :=
  worksheet.foldl processRow initialImportState

/-- The JSON body returned by a successful import (`products.js`
lines 120-125). -/
structure ImportSummary where
  message : String
  total : Nat
  success : Nat
  errors : List String
deriving DecidableEq

/-- The success message template of `products.js` line 121. -/
def importMessage (success : Nat) : String :=
  "Importação concluída. " ++ toString success ++ " produtos importados."

/-- The summary built from a finished scan. -/
def importSummaryOf (worksheet : List (Nat × ExcelRow)) : ImportSummary :=
  let s := runImport worksheet
  ⟨importMessage s.successCount, s.rowCount, s.successCount, s.errors⟩

/-- What reading the uploaded file can come to inside the import handler
(`products.js` lines 46-54): the read itself throws, the workbook has no
first worksheet (`getWorksheet(1)` is undefined), or a worksheet is
obtained; in the last case the later bulk insert may itself throw, which
the flag records. -/
inductive UploadRead where
  | readFailure
  | missingWorksheet
  | sheet (rows : List (Nat × ExcelRow)) (insertManyFails : Bool)
deriving DecidableEq

/-- Outcome of the import handler as seen from outside: HTTP status, the
summary body when one is produced, and whether the uploaded temporary file
is gone when the handler returns. -/
structure ImportHttpOutcome where
  status : Nat
  body : Option ImportSummary
  tempFileGone : Bool
deriving DecidableEq

/-- Control flow of the import handler (`products.js` lines 41-136).
With no file the handler returns 400 before a temporary file exists
(nothing to leak).  A throwing read lands in the catch block, which
unlinks the file and returns 500.  A missing first worksheet returns 400
at line 53 without reaching any unlink call, so the temporary file stays
behind.  Otherwise the scan runs; a throwing bulk insert lands in the
catch block (unlink, 500), and the success path unlinks at line 118 and
returns the summary. -/
def importExcelHandler : Option UploadRead → ImportHttpOutcome
  | none => ⟨400, none, true⟩
  | some UploadRead.readFailure => ⟨500, none, true⟩
  | some UploadRead.missingWorksheet => ⟨400, none, false⟩
  | some (UploadRead.sheet rows insertManyFails) =>
      if insertManyFails then ⟨500, none, true⟩
      else ⟨200, some (importSummaryOf rows), true⟩

/-- A persisted product record, fields as used by the export and
toggle-status handlers. -/
structure Product where
  name : String
  description : String
  category : String
  weight : Option String
  quantity : Int
  costPrice : Rat
  sellingPrice : Rat
  ifoodPrice : Rat
  isActive : Bool
  expirationDate : Option Rat
  createdAt : Rat
  updatedAt : Rat
deriving DecidableEq

/-- One data row of the export worksheet (`products.js` lines 170-191).
The `createdAt` cell carries the raw timestamp here; its pt-BR locale
rendering is presentation-only and not modelled. -/
structure ExportRow where
  name : String
  description : String
  category : String
  weight : Option String
  quantity : Int
  costPrice : Rat
  sellingPrice : Rat
  ifoodPrice : Rat
  marginPercentage : Rat
  marginValue : Rat
  status : String
  createdAt : Rat
deriving DecidableEq

/-- The per-product computation of the export loop (`products.js`
lines 170-190): `marginValue = sellingPrice - costPrice` and
`marginPercentage = costPrice > 0 ? ((sellingPrice - costPrice) / costPrice) * 100 : 0`. -/
def exportRowOf (product : Product) : ExportRow :=
  { name := product.name
    description := product.description
    category := product.category
    weight := product.weight
    quantity := product.quantity
    costPrice := product.costPrice
    sellingPrice := product.sellingPrice
    ifoodPrice := product.ifoodPrice
    marginPercentage :=
      if 0 < product.costPrice then
        (product.sellingPrice - product.costPrice) / product.costPrice * 100
      else 0
    marginValue := product.sellingPrice - product.costPrice
    status := if product.isActive then "Ativo" else "Inativo"
    createdAt := product.createdAt }

/-- The number format put on the MarginPercentage column (`products.js`
line 199). -/
def marginPercentageNumFmt : String := "0.00%"

/-- Display semantics of the Excel percent number format `0.00%`: the
number shown is the stored cell value multiplied by 100. -/
def renderedPercentValue (cellValue : Rat) : Rat := cellValue * 100

/-- Modelled from the spec: the MarginPercentage cell value as §4.3
describes it, `costPrice > 0 ? (sellingPrice - costPrice) / costPrice : 0`,
a plain fraction with the multiplication by 100 left to the percent format. -/
def specMarginPercentage (product : Product) : Rat :=
  if 0 < product.costPrice then
    (product.sellingPrice - product.costPrice) / product.costPrice
  else 0

/-- An HTTP error response: status code and error message body. -/
structure ApiError where
  status : Nat
  error : String
deriving DecidableEq

/-- Error message of the empty-set export guard (`products.js` line 144). -/
def noProductsToExportMsg : String := "Não há produtos cadastrados para exportar"

/-- The generated export workbook: sheet name, data rows in product order,
and the attachment filename. -/
structure ExportWorkbook where
  sheetName : String
  rows : List ExportRow
  filename : String
deriving DecidableEq

/-- The export handler (`products.js` lines 139-207): an empty product set
returns 404 before any workbook is built; otherwise one worksheet named
Produtos is filled with one row per product and streamed as
produtos.xlsx. -/
def exportExcel (products : List Product) : Except ApiError ExportWorkbook :=
  if products.length = 0 then
    Except.error ⟨404, noProductsToExportMsg⟩
  else
    Except.ok ⟨"Produtos", products.map exportRowOf, "produtos.xlsx"⟩

/-- JS `Number.prototype.toFixed(2)`: round to the integer number of
hundredths nearest to the value, ties toward positive infinity, and print
with exactly two digits after the decimal point. -/
def toFixed2 (q : Rat) : String :=
  let n : Int := ⌊q * 100 + 1 / 2⌋
  (if n < 0 then "-" else "") ++ toString (n.natAbs / 100) ++ "." ++
    (if n.natAbs % 100 < 10 then "0" else "") ++ toString (n.natAbs % 100)

/-- The frontend margin helper (`ProductManagement.tsx` lines 164-168):
guard `costPrice <= 0` first (returning the literal string `0%`), otherwise
format `((sellingPrice - costPrice) / costPrice) * 100` with `toFixed(2)`
and append the percent sign. -/
def calculateProfitMarginPercentage (costPrice sellingPrice : Rat) : String :=
  if costPrice ≤ 0 then "0%"
  else toFixed2 ((sellingPrice - costPrice) / costPrice * 100) ++ "%"

/-- The promotion-dialog discount helper (`StockManagement` component,
lines 84-103): an absent date yields 0; otherwise the tiers are driven by
`timeRemaining = expiration - now` and
`daysRemaining = timeRemaining / (24 * 60 * 60 * 1000)`. -/
def calculateSuggestedDiscount (expirationDate : Option Rat) (now : Rat) : Rat :=
  match expirationDate with
  | none => 0
  | some expiration =>
      let timeRemaining := expiration - now
      if timeRemaining ≤ 0 then 50
      else
        let daysRemaining := timeRemaining / (24 * 60 * 60 * 1000)
        if daysRemaining ≤ 1 then 40
        else if daysRemaining ≤ 7 then 25
        else if daysRemaining ≤ 30 then 15
        else 10

/-- Error message of the toggle-status handler for an unknown id
(`products.js` line 292). -/
def produtoNaoEncontradoMsg : String := "Produto não encontrado"

/-- The toggle-status handler (`products.js` lines 287-305) over a store
modelled as an association list from id to record: an unknown id returns
404 and leaves the store untouched; otherwise the record has `isActive`
negated and `updatedAt` set to the current time, is saved in place, and is
returned. -/
def toggleStatus (db : List (String × Product)) (id : String) (now : Rat) :
    Except ApiError Product × List (String × Product) :=
  match db.lookup id with
  | none => (Except.error ⟨404, produtoNaoEncontradoMsg⟩, db)
  | some product =>
      let updated := { product with isActive := !product.isActive, updatedAt := now }
      (Except.ok updated,
        db.map fun entry => if entry.1 = id then (entry.1, updated) else entry)

/-- Sample rejected row of spec example 3: valid required fields but an
unknown category. -/
def boloRow : ExcelRow :=
  { name := some "Bolo", description := some "desc", category := some "Doce",
    weight := some "200g", quantity := some 3, costPrice := some 5,
    sellingPrice := some 10, ifoodPrice := some 11 }

/-- Sample rejected row of spec example 2: empty name. -/
def emptyNameRow : ExcelRow :=
  { name := some "", description := some "x", category := some "Frango",
    weight := some "300g", quantity := some 5, costPrice := some 10,
    sellingPrice := some 20, ifoodPrice := some 22 }

/-- Sample row whose quantity cell holds a negative integer while every
validated field is fine. -/
def negQuantityRow : ExcelRow :=
  { name := some "Bolo de Frango", description := none, category := some "Frango",
    weight := some "300g", quantity := some (-5), costPrice := some 10,
    sellingPrice := some 20, ifoodPrice := some 22 }

/-- The candidate the row validator produces for `negQuantityRow`. -/
def negQuantityCandidate : ProductCandidate :=
  { name := "Bolo de Frango", description := "", category := "Frango",
    weight := some "300g", quantity := -5, costPrice := 10,
    sellingPrice := 20, ifoodPrice := 22, isActive := true }

/-- Sample stored product with costPrice 10 and sellingPrice 20. -/
def sampleProduct : Product :=
  { name := "Marmita de Carne", description := "", category := "Carne",
    weight := some "400g", quantity := 4, costPrice := 10, sellingPrice := 20,
    ifoodPrice := 22, isActive := true, expirationDate := none,
    createdAt := 0, updatedAt := 0 }

/-- Sample one-record store. -/
def sampleDb : List (String × Product) := [("p1", sampleProduct)]

/-- Unfolding of `String.append` into list append on the character data. -/
theorem data_append (s t : String) : (s ++ t).data = s.data ++ t.data := rfl

/-- Distinctness of the two rejection messages: the category message never
collides with the required-fields message, whatever the row number and the
offending category value are. -/
theorem invalidCategoryMsg_ne_invalidDataMsg (n : Nat) (c : String) :
    invalidCategoryMsg n c ≠ invalidDataMsg n := by
  intro h
  have h2 := congrArg String.data h
  simp only [invalidCategoryMsg, invalidDataMsg, data_append, List.append_assoc] at h2
  have h3 := List.append_cancel_left h2
  have h4 := List.append_cancel_left h3
  have h5 := congrArg (fun l => l.get? 2) h4
  simp only [List.cons_append, List.get?] at h5
  revert h5
  decide

/-- Scan invariant of the import loop: the row counter grows by the number
of non-header entries, whatever the starting state. -/
theorem foldl_processRow_rowCount (ws : List (Nat × ExcelRow)) (st : ImportState) :
    (ws.foldl processRow st).rowCount
        = st.rowCount + (ws.filter fun e => e.1 ≠ 1).length := by
  induction ws generalizing st with
  | nil => simp
  | cons hd tl ih =>
    obtain ⟨n, r⟩ := hd
    by_cases h1 : n = 1
    · subst h1; simp [processRow, ih]
    · rcases hv : validateRow n r with m | c <;>
        simp [processRow, h1, hv, ih] <;> omega

/-- Scan invariant of the import loop: every non-header entry adds one to
exactly one of the success tally and the error list. -/
theorem foldl_processRow_success_errors (ws : List (Nat × ExcelRow)) (st : ImportState) :
    (ws.foldl processRow st).successCount + (ws.foldl processRow st).errors.length
        = st.successCount + st.errors.length + (ws.filter fun e => e.1 ≠ 1).length := by
  induction ws generalizing st with
  | nil => simp
  | cons hd tl ih =>
    obtain ⟨n, r⟩ := hd
    by_cases h1 : n = 1
    · subst h1; simp [processRow, ih]
    · rcases hv : validateRow n r with m | c <;>
        simp [processRow, h1, hv, ih] <;> omega

/-- Scan invariant of the import loop: the pending-insert list is extended
by exactly the candidates the validator accepts, in row order. -/
theorem foldl_processRow_products (ws : List (Nat × ExcelRow)) (st : ImportState) :
    (ws.foldl processRow st).productsToCreate
        = st.productsToCreate ++
            ((ws.filter fun e => e.1 ≠ 1).filterMap fun e => (validateRow e.1 e.2).toOption) := by
  induction ws generalizing st with
  | nil => simp
  | cons hd tl ih =>
    obtain ⟨n, r⟩ := hd
    by_cases h1 : n = 1
    · subst h1; simp [processRow, ih]
    · rcases hv : validateRow n r with m | c <;>
        simp [processRow, h1, hv, ih, List.filterMap_cons, Except.toOption]

/-- Scan invariant of the import loop: the success tally counts exactly the
accepted candidates. -/
theorem foldl_processRow_successCount (ws : List (Nat × ExcelRow)) (st : ImportState) :
    (ws.foldl processRow st).successCount
        = st.successCount +
            ((ws.filter fun e => e.1 ≠ 1).filterMap fun e => (validateRow e.1 e.2).toOption).length := by
  induction ws generalizing st with
  | nil => simp
  | cons hd tl ih =>
    obtain ⟨n, r⟩ := hd
    by_cases h1 : n = 1
    · subst h1; simp [processRow, ih]
    · rcases hv : validateRow n r with m | c
      · simp [processRow, h1, hv, ih, List.filterMap_cons, Except.toOption]
      · simp [processRow, h1, hv, ih, List.filterMap_cons, Except.toOption]
        omega

/-- Claim C1: for every import run the returned summary satisfies
total = success + number of rejected rows, the header row (row number 1)
being excluded from total; each non-header row raises total by one and
exactly one of success or the error count; and the returned message is the
string Importação concluída. N produtos importados. with N the success
tally of the same run. -/
theorem c1_import_summary_counts (ws : List (Nat × ExcelRow)) :
    (importSummaryOf ws).total = (ws.filter fun e => e.1 ≠ 1).length ∧
    (importSummaryOf ws).total
        = (importSummaryOf ws).success + (importSummaryOf ws).errors.length ∧
    (importSummaryOf ws).message
        = "Importação concluída. " ++ toString (importSummaryOf ws).success ++
            " produtos importados." := by
  have hr := foldl_processRow_rowCount ws initialImportState
  have hs := foldl_processRow_success_errors ws initialImportState
  simp only [initialImportState, List.length_nil] at hr hs
  refine ⟨?_, ?_, rfl⟩
  · simpa [importSummaryOf, runImport, initialImportState] using hr
  · simp only [importSummaryOf, runImport, initialImportState]
    omega

/-- Claim C2: the row validator rejects with the Dados inválidos message
exactly when the name is empty or absent, or the category is empty or
absent, or the parsed costPrice is at most 0, or the parsed sellingPrice is
at most 0; and the pending-insert batch of a run consists exactly of the
accepted candidates, so every rejected row is excluded from it. -/
theorem c2_invalid_data_rejection (n : Nat) (row : ExcelRow) (ws : List (Nat × ExcelRow)) :
    (validateRow n row = Except.error (invalidDataMsg n) ↔
      (row.name.getD "" = "" ∨ row.category.getD "" = "" ∨
        row.costPrice.getD 0 ≤ 0 ∨ row.sellingPrice.getD 0 ≤ 0)) ∧
    (runImport ws).productsToCreate
        = ((ws.filter fun e => e.1 ≠ 1).filterMap fun e => (validateRow e.1 e.2).toOption) := by
  constructor
  · constructor
    · intro h
      by_contra hc
      simp only [validateRow, if_neg hc] at h
      by_cases hcat : row.category.getD "" ∉ validCategories
      · rw [if_pos hcat] at h
        exact invalidCategoryMsg_ne_invalidDataMsg n (row.category.getD "")
          (Except.error.inj h)
      · rw [if_neg hcat] at h
        exact Except.noConfusion h
    · intro hc
      simp only [validateRow, if_pos hc]
  · simpa [initialImportState] using foldl_processRow_products ws initialImportState

/-- Claim C3: a row that passes the required-fields check but whose
category is outside the four valid values is rejected with the Categoria
inválida message carrying that category value; the category check runs only
after the required-fields check, so a row failing the required-fields check
gets the Dados inválidos message whatever its category is. -/
theorem c3_category_rejection (n : Nat) (row : ExcelRow) :
    (¬(row.name.getD "" = "" ∨ row.category.getD "" = "" ∨
        row.costPrice.getD 0 ≤ 0 ∨ row.sellingPrice.getD 0 ≤ 0) →
      (validateRow n row = Except.error (invalidCategoryMsg n (row.category.getD "")) ↔
        row.category.getD "" ∉ validCategories)) ∧
    ((row.name.getD "" = "" ∨ row.category.getD "" = "" ∨
        row.costPrice.getD 0 ≤ 0 ∨ row.sellingPrice.getD 0 ≤ 0) →
      validateRow n row = Except.error (invalidDataMsg n)) := by
  constructor
  · intro h
    simp only [validateRow, if_neg h]
    by_cases hcat : row.category.getD "" ∉ validCategories
    · simp [hcat]
    · simp [hcat]
  · intro h
    simp only [validateRow, if_pos h]

/-- Witness for claim C3 at the two spec examples: the Doce row is rejected
with the category message naming Doce, and a row with an empty name is
rejected with the required-fields message even though its category is
valid. -/
theorem c3_category_rejection_witness :
    validateRow 3 boloRow = Except.error (invalidCategoryMsg 3 "Doce") ∧
    validateRow 5 emptyNameRow = Except.error (invalidDataMsg 5) := by
  constructor
  · exact ((c3_category_rejection 3 boloRow).1 (by decide)).mpr (by decide)
  · exact (c3_category_rejection 5 emptyNameRow).2 (by decide)

/-- Claim C4 is false of the code: the export loop stores the ratio already
multiplied by 100 in the MarginPercentage cell while the column also
carries the percent display format, which multiplies by 100 once more at
render time.  At a product with costPrice 10 and sellingPrice 20 the cell
holds 100, not the fraction 1 the claim describes, hence the rendered
number is 10000 percent instead of 100 percent. -/
theorem c4_margin_cell_stored_as_percent :
    (exportRowOf sampleProduct).marginPercentage = 100 ∧
    specMarginPercentage sampleProduct = 1 ∧
    (exportRowOf sampleProduct).marginPercentage
        = 100 * specMarginPercentage sampleProduct ∧
    marginPercentageNumFmt = "0.00%" ∧
    renderedPercentValue (exportRowOf sampleProduct).marginPercentage = 10000 := by
  refine ⟨?_, ?_, ?_, rfl, ?_⟩ <;>
    norm_num [exportRowOf, specMarginPercentage, sampleProduct, renderedPercentValue]

/-- Counterexample to claim C5: at costPrice 0 the helper returns the
literal string 0 percent with no decimal places, not the two-decimal
format the claim asserts for that case. -/
theorem c5_zero_cost_format_counterexample :
    calculateProfitMarginPercentage 0 5 = "0%" ∧
    calculateProfitMarginPercentage 0 5 ≠ "0.00%" := by
  constructor <;> decide

/-- Claim C5 as amended: for costPrice at most 0 the helper returns the
plain string 0 percent, so no division by zero occurs; for positive
costPrice it returns the percentage ratio formatted by toFixed(2) with a
trailing percent sign; at costPrice 15 and sellingPrice 29.9 the result is
the string 99.33 percent. -/
theorem c5_profit_margin_amended :
    calculateProfitMarginPercentage 15 (299/10) = "99.33%" ∧
    (∀ costPrice sellingPrice : Rat, costPrice ≤ 0 →
      calculateProfitMarginPercentage costPrice sellingPrice = "0%") ∧
    (∀ costPrice sellingPrice : Rat, 0 < costPrice →
      calculateProfitMarginPercentage costPrice sellingPrice
        = toFixed2 ((sellingPrice - costPrice) / costPrice * 100) ++ "%") := by
  refine ⟨?_, ?_, ?_⟩
  · simp only [calculateProfitMarginPercentage]
    rw [if_neg (by norm_num)]
    have h1 : ((299:ℚ)/10 - 15) / 15 * 100 = 298/3 := by norm_num
    rw [h1]
    have h2 : ⌊(298/3 : ℚ) * 100 + 1/2⌋ = (9933 : ℤ) := by norm_num
    simp only [toFixed2, h2]
    decide
  · intro c s hc
    simp only [calculateProfitMarginPercentage, if_pos hc]
  · intro c s hc
    simp only [calculateProfitMarginPercentage, if_neg (not_le.mpr hc)]

/-- Witness for claim C5 as amended, at costPrice 0 and at the spec
example costPrice 15, sellingPrice 29.9. -/
theorem c5_profit_margin_amended_witness :
    calculateProfitMarginPercentage 0 7 = "0%" ∧
    calculateProfitMarginPercentage 15 (299/10) = "99.33%" :=
  ⟨c5_profit_margin_amended.2.1 0 7 (by norm_num), c5_profit_margin_amended.1⟩

/-- Claim C6: the promotion-dialog discount helper returns exactly the tier
of the days remaining until expiration, 50 for at most 0 days, 40 for more
than 0 and at most 1, 25 for more than 1 and at most 7, 15 for more than 7
and at most 30, and 10 beyond 30 days. -/
theorem c6_suggested_discount_tiers (expiration now d : Rat)
    (hd : d = (expiration - now) / (24 * 60 * 60 * 1000)) :
    (d ≤ 0 → calculateSuggestedDiscount (some expiration) now = 50) ∧
    (0 < d → d ≤ 1 → calculateSuggestedDiscount (some expiration) now = 40) ∧
    (1 < d → d ≤ 7 → calculateSuggestedDiscount (some expiration) now = 25) ∧
    (7 < d → d ≤ 30 → calculateSuggestedDiscount (some expiration) now = 15) ∧
    (30 < d → calculateSuggestedDiscount (some expiration) now = 10) := by
  have hC : ((24 * 60 * 60 * 1000 : ℚ)) ≠ 0 := by norm_num
  have hCpos : ((0:ℚ)) < 24 * 60 * 60 * 1000 := by norm_num
  have ht : expiration - now = d * (24 * 60 * 60 * 1000) := by
    rw [hd, div_mul_cancel₀ _ hC]
  simp only [calculateSuggestedDiscount, ht, mul_div_cancel_right₀ _ hC]
  refine ⟨?_, ?_, ?_, ?_, ?_⟩
  · intro h
    rw [if_pos (by nlinarith)]
  · intro h0 h1
    rw [if_neg (by nlinarith), if_pos h1]
  · intro h1 h7
    rw [if_neg (by nlinarith), if_neg (by linarith), if_pos h7]
  · intro h7 h30
    rw [if_neg (by nlinarith), if_neg (by linarith), if_neg (by linarith), if_pos h30]
  · intro h30
    rw [if_neg (by nlinarith), if_neg (by linarith), if_neg (by linarith),
      if_neg (by linarith)]

/-- Witness for claim C6: an item expiring in exactly 5 days from now gets
the 25 percent tier. -/
theorem c6_suggested_discount_tiers_witness :
    calculateSuggestedDiscount (some (5 * 86400000)) 0 = 25 :=
  (c6_suggested_discount_tiers (5 * 86400000) 0 5 (by norm_num)).2.2.1
    (by norm_num) (by norm_num)

/-- Claim C7 is false of the code: the early return for a workbook without
a first worksheet (products.js line 53) happens before any unlink call, so
that path hands a 400 back with the uploaded temporary file still on disk;
every other path (read failure, bulk-insert failure, success) does remove
the file. -/
theorem c7_missing_worksheet_leaks_temp_file :
    (importExcelHandler (some UploadRead.missingWorksheet)).status = 400 ∧
    (importExcelHandler (some UploadRead.missingWorksheet)).tempFileGone = false ∧
    (importExcelHandler (some UploadRead.readFailure)).tempFileGone = true ∧
    (∀ rows insertManyFails,
      (importExcelHandler (some (UploadRead.sheet rows insertManyFails))).tempFileGone
        = true) := by
  refine ⟨rfl, rfl, rfl, fun rows insertManyFails => ?_⟩
  cases insertManyFails <;> rfl

/-- Claim C8: exporting an empty product set fails with status 404 and the
message Não há produtos cadastrados para exportar and no workbook is built,
and any successfully produced workbook has at least one data row, so an
empty spreadsheet is never streamed. -/
theorem c8_empty_export_guard (products : List Product) :
    (products = [] →
      exportExcel products = Except.error ⟨404, noProductsToExportMsg⟩) ∧
    (∀ wb, exportExcel products = Except.ok wb →
      0 < wb.rows.length ∧ products ≠ []) := by
  constructor
  · rintro rfl
    rfl
  · intro wb h
    by_cases hl : products.length = 0
    · simp only [exportExcel, if_pos hl] at h
      exact Except.noConfusion h
    · simp only [exportExcel, if_neg hl] at h
      obtain rfl := Except.ok.inj h
      refine ⟨?_, ?_⟩
      · simpa [List.length_map] using Nat.pos_of_ne_zero hl
      · intro hnil
        exact hl (by rw [hnil]; rfl)

/-- Witness for claim C8: the empty set yields the 404 error, and the
one-product set yields a workbook with one row. -/
theorem c8_empty_export_guard_witness :
    exportExcel ([] : List Product) = Except.error ⟨404, noProductsToExportMsg⟩ ∧
    0 < (ExportWorkbook.mk "Produtos" [exportRowOf sampleProduct] "produtos.xlsx").rows.length := by
  refine ⟨(c8_empty_export_guard []).1 rfl, ?_⟩
  exact ((c8_empty_export_guard [sampleProduct]).2
    ⟨"Produtos", [exportRowOf sampleProduct], "produtos.xlsx"⟩ rfl).1

/-- Counterexample to claim C9: a row whose quantity cell parses to -5 and
whose validated fields are all fine is accepted, and the accepted candidate
carries the negative quantity -5, so accepted candidates do not always have
quantity at least 0. -/
theorem c9_negative_quantity_accepted :
    (validateRow 2 negQuantityRow).toOption.map ProductCandidate.quantity = some (-5) ∧
    (-5 : Int) < 0 := by
  constructor <;> decide

/-- Claim C9 as amended: the accepted candidate carries exactly the parsed
quantity, which defaults to 0 when the cell is absent or unparsable, and
the validator never rejects on the quantity field, so any parsed integer,
negative ones included, is accepted. -/
theorem c9_quantity_passthrough (n : Nat) (row : ExcelRow) :
    (∀ c, validateRow n row = Except.ok c →
      c.quantity = row.quantity.getD 0 ∧ (row.quantity = none → c.quantity = 0)) ∧
    (∀ q, (validateRow n { row with quantity := q }).isOk = (validateRow n row).isOk) := by
  constructor
  · intro c hc
    simp only [validateRow] at hc
    split_ifs at hc
    all_goals
      first
        | exact Except.noConfusion hc
        | (obtain rfl := Except.ok.inj hc
           exact ⟨rfl, fun h => by rw [h]; rfl⟩)
  · intro q
    dsimp only [validateRow]
    split_ifs <;> rfl

/-- Witness for claim C9 as amended: at the sample row the accepted
candidate carries the parsed quantity of the row. -/
theorem c9_quantity_passthrough_witness :
    negQuantityCandidate.quantity = negQuantityRow.quantity.getD 0 :=
  ((c9_quantity_passthrough 2 negQuantityRow).1 negQuantityCandidate rfl).1

/-- Claim C10: on an existing id the toggle-status operation returns the
record with isActive negated and updatedAt set to the current time, stores
exactly that record in place, leaves every other field of the record and
every other stored record unchanged, and on an unknown id returns the 404
error and leaves the store untouched. -/
theorem c10_toggle_status_frame (db : List (String × Product)) (id : String) (now : Rat) :
    (db.lookup id = none →
      toggleStatus db id now = (Except.error ⟨404, produtoNaoEncontradoMsg⟩, db)) ∧
    (∀ p, db.lookup id = some p →
      (toggleStatus db id now).1
          = Except.ok { p with isActive := !p.isActive, updatedAt := now } ∧
      (toggleStatus db id now).2
          = db.map fun e =>
              if e.1 = id then (e.1, { p with isActive := !p.isActive, updatedAt := now })
              else e) ∧
    (∀ p q, db.lookup id = some p → (toggleStatus db id now).1 = Except.ok q →
      q.isActive = !p.isActive ∧ q.updatedAt = now ∧ q.name = p.name ∧
      q.description = p.description ∧ q.category = p.category ∧ q.weight = p.weight ∧
      q.quantity = p.quantity ∧ q.costPrice = p.costPrice ∧
      q.sellingPrice = p.sellingPrice ∧ q.ifoodPrice = p.ifoodPrice ∧
      q.expirationDate = p.expirationDate ∧ q.createdAt = p.createdAt) ∧
    (∀ e, e ∈ db → e.1 ≠ id → e ∈ (toggleStatus db id now).2) := by
  refine ⟨?_, ?_, ?_, ?_⟩
  · intro h
    simp only [toggleStatus, h]
  · intro p hp
    refine ⟨?_, ?_⟩ <;> simp [toggleStatus, hp]
  · intro p q hp hq
    have heq : (Except.ok { p with isActive := !p.isActive, updatedAt := now }
          : Except ApiError Product)
        = Except.ok q := by
      rw [← hq]; simp [toggleStatus, hp]
    obtain rfl := Except.ok.inj heq
    exact ⟨rfl, rfl, rfl, rfl, rfl, rfl, rfl, rfl, rfl, rfl, rfl, rfl⟩
  · intro e he hne
    rcases hl : db.lookup id with _ | p
    · simp only [toggleStatus, hl]
      exact he
    · simp only [toggleStatus, hl]
      have hfix :
          (fun entry : String × Product =>
            if entry.1 = id then (entry.1, { p with isActive := !p.isActive, updatedAt := now })
            else entry) e = e := by
        simp [hne]
      exact hfix ▸ List.mem_map_of_mem _ he

/-- Witness for claim C10: on the one-record sample store an unknown id
returns 404 with the store unchanged, and the stored record id toggles to
inactive with updatedAt 5. -/
theorem c10_toggle_status_frame_witness :
    toggleStatus sampleDb "zz" 5 = (Except.error ⟨404, produtoNaoEncontradoMsg⟩, sampleDb) ∧
    (toggleStatus sampleDb "p1" 5).1
        = Except.ok { sampleProduct with isActive := !sampleProduct.isActive, updatedAt := 5 } := by
  constructor
  · exact (c10_toggle_status_frame sampleDb "zz" 5).1 rfl
  · exact ((c10_toggle_status_frame sampleDb "p1" 5).2.1 sampleProduct rfl).1

end MrFit
